import Mathlib

/-!
Shallow embedding of the task-runner orchestrator:
the client-side event stream adapter and status derivation
(src/react-app/hooks/use-task-diff.ts, `useTaskEvents`) and the
server-side task routes (src/worker/tasks-app.ts).

Machine-level conventions of the JavaScript source that the embedding
keeps explicit:
* a JS value of type `string | undefined` is modelled as `Option String`;
* JS truthiness on such a value (`!x`, `x || y`) treats both `undefined`
  and the empty string as falsy, which the helpers `jsTruthyOpt` and
  `jsOrStr` reproduce;
* JSON values are modelled by the inductive `JsonVal`; the platform
  function `JSON.parse` is not re-implemented — where the worker parses a
  string produced by an external process, the parse result is an input of
  the model (an `Option JsonVal`, `none` meaning the parse threw).
-/

/-- Result of a shell command run to completion in the sandbox
(the `sandbox.exec` return value: `success`, `stdout`, `stderr`). -/
structure ExecResult where
  success : Bool
  stdout : String
  stderr : String
deriving Repr, DecidableEq

/-- JS truthiness of a `string | undefined` value: `undefined` and `""` are falsy. -/
def jsTruthyOpt : Option String → Bool
  | none => false
  | some s => !(s = "")

/-- JS `a || b` on `string | undefined` values: `b` when `a` is falsy. -/
def jsOrStr (a b : Option String) : Option String :=
  match a with
  | none => b
  | some s => if s = "" then b else some s

/-- JS template-string rendering of a `string | undefined` value
(`undefined` renders as the text "undefined"). -/
def jsTemplate (o : Option String) : String := o.getD "undefined"

/-- The fields of a nested `part` payload that `useTaskEvents` reads while
normalizing an upstream event (`part.sessionID`, `part.messageID`). -/
structure NativePart where
  sessionID : Option String := none
  messageID : Option String := none
deriving Repr, DecidableEq

/-- The `status` object carried by `session.status` events
(`event.properties.status.type`). -/
structure StatusObj where
  type : String
deriving Repr, DecidableEq

/-- The keys of an upstream OpenCode event's `properties` object that the
normalization in `useTaskEvents` reads or that interact with its spread.
`sessionID` / `messageID` are the agent's camel-cased keys; `sessionId` /
`messageId` model a lowercase key literally present in the native
properties object (`none` = key absent), which matters because
`...openCodeEvent.properties` is spread after the resolved fields. -/
structure NativeProps where
  sessionID : Option String := none
  messageID : Option String := none
  part : Option NativePart := none
  sessionId : Option String := none
  messageId : Option String := none
  status : Option StatusObj := none
deriving Repr, DecidableEq

/-- An upstream OpenCode event `{type, properties}` as decoded from one
SSE `data:` line. -/
structure OpenCodeEvent where
  type : String
  properties : NativeProps
deriving Repr, DecidableEq

/-- The normalized `TaskEvent.properties` produced by `useTaskEvents`. -/
structure TaskEventProps where
  sessionId : Option String := none
  messageId : Option String := none
  part : Option NativePart := none
  status : Option StatusObj := none
deriving Repr, DecidableEq

/-- A normalized `TaskEvent` `{type, properties}`. -/
structure TaskEvent where
  type : String
  properties : TaskEventProps
deriving Repr, DecidableEq

/-- The normalization step of `useTaskEvents` (use-task-diff.ts lines
106-120): `sessionId` is resolved as
`properties.sessionID || properties.part?.sessionID` (JS falsy-or), same
for `messageId`, then `...openCodeEvent.properties` is spread last, so a
lowercase `sessionId` / `messageId` key present in the native properties
overwrites the resolved value. -/
def normalizeEvent (e : OpenCodeEvent) : TaskEvent :=
  { type := e.type
    properties :=
      { sessionId :=
          match e.properties.sessionId with
          | some v => some v
          | none => jsOrStr e.properties.sessionID (e.properties.part.bind NativePart.sessionID)
        messageId :=
          match e.properties.messageId with
          | some v => some v
          | none => jsOrStr e.properties.messageID (e.properties.part.bind NativePart.messageID)
        part := e.properties.part
        status := e.properties.status } }

/-- The session filter of `useTaskEvents` (use-task-diff.ts lines 122-126):
`!taskEvent.properties.sessionId || taskEvent.properties.sessionId === sessionId`. -/
def shouldDeliver (e : TaskEvent) (S : String) : Bool :=
  match e.properties.sessionId with
  | none => true
  | some s => (s == "") || (s == S)

/-- "Absent" session id in the JS sense used by the filter's `!x` test:
the key is missing or its value is the empty string. -/
def sessionAbsent (o : Option String) : Prop := o = none ∨ o = some ""

/-- Appending a normalized event to the subscriber's event list iff the
session filter passes (use-task-diff.ts lines 122-128). -/
def deliverEvent (events : List TaskEvent) (e : TaskEvent) (S : String) : List TaskEvent :=
  if shouldDeliver e S then events ++ [e] else events

/-- One `onmessage` normalization-plus-filter step on a decoded upstream event. -/
def subscriberStep (events : List TaskEvent) (raw : OpenCodeEvent) (S : String) : List TaskEvent :=
  deliverEvent events (normalizeEvent raw) S

/-- The derived status enumeration of `useTaskEvents`. -/
inductive DerivedStatus where
  | idle
  | busy
  | completed
  | error
  | unknown
deriving Repr, DecidableEq

/-- One step of the status fold (the loop body of the `useMemo` in
use-task-diff.ts lines 155-170). -/
def deriveStep (acc : DerivedStatus × Bool) (e : TaskEvent) : DerivedStatus × Bool :=
  if e.type = "session.status" then
    match e.properties.status with
    | some st =>
      if st.type = "busy" then (DerivedStatus.busy, acc.2)
      else if st.type = "idle" then (DerivedStatus.idle, acc.2)
      else acc
    | none => acc
  else if e.type = "session.idle" then (DerivedStatus.completed, true)
  else if e.type = "error" then (DerivedStatus.error, true)
  else acc

/-- The status derivation of `useTaskEvents` (use-task-diff.ts lines
150-173): a left fold over the accumulated ordered event list starting
from `(unknown, false)`. -/
def deriveStatus (events : List TaskEvent) : DerivedStatus × Bool :=
  events.foldl deriveStep (DerivedStatus.unknown, false)

/-- An observable operation issued against the sandbox execution context. -/
inductive SbOp where
  | exec (cmd : String)
  | startProcess (cmd : String)
  | execStream (cmd : String)
deriving Repr, DecidableEq

/-- A single-quote character, used when assembling the shell command
strings of tasks-app.ts. -/
def qc : String := String.singleton (Char.ofNat 39)

/-- The clone command of the create-task handler (tasks-app.ts line 122). -/
def cloneCmd (repoUrl branch : String) : String :=
  "git clone --branch " ++ branch ++ " --single-branch " ++ repoUrl ++ " /workspace/repo"

/-- The detached agent-server launch command (tasks-app.ts line 135). -/
def opencodeServeCmd : String :=
  "opencode serve --port 4096 --hostname 0.0.0.0"

/-- The readiness probe command of `waitForOpenCode` (tasks-app.ts line 89). -/
def probeCmd : String :=
  "curl -sf http://localhost:4096/session || echo " ++ qc ++ "not ready" ++ qc

/-- The diff command of the diff handler (tasks-app.ts line 278). -/
def diffCmd : String := "git diff HEAD"

/-- The streaming command of the events handler (tasks-app.ts line 260). -/
def eventsCmd : String :=
  "curl -N -H " ++ qc ++ "Accept: text/event-stream" ++ qc ++ " " ++ qc
    ++ "http://localhost:4096/event" ++ qc

/-- The JS `.replace(/'/g, "'\\''")` escaping applied to JSON bodies
before single-quoting them into a shell command (tasks-app.ts line 40). -/
def escapeSq (s : String) : String :=
  String.join (s.toList.map fun c =>
    if c = Char.ofNat 39 then qc ++ "\\" ++ qc ++ qc else String.singleton c)

/-- The command string assembled by `curlJson` (tasks-app.ts lines 29-46);
`body` is the already-stringified-and-escaped JSON body, if any. -/
def curlJsonCmd (method url : String) (body : Option String) : String :=
  "curl -s -X " ++ method ++ " -H " ++ qc ++ "Content-Type: application/json" ++ qc
    ++ (match body with
        | some b => " -d " ++ qc ++ b ++ qc
        | none => "")
    ++ " " ++ qc ++ url ++ qc

/-- JSON values, as far as the worker inspects them. -/
inductive JsonVal where
  | null
  | bool (b : Bool)
  | num (n : Int)
  | str (s : String)
  | arr (xs : List JsonVal)
  | obj (fields : List (String × JsonVal))

/-- JSON string escaping for `JSON.stringify` (quote, backslash and the
common control characters; other characters pass through). -/
def jsonEscapeChar (c : Char) : String :=
  if c = Char.ofNat 34 then "\\" ++ String.singleton (Char.ofNat 34)
  else if c = Char.ofNat 92 then "\\\\"
  else if c = Char.ofNat 10 then "\\n"
  else if c = Char.ofNat 13 then "\\r"
  else if c = Char.ofNat 9 then "\\t"
  else String.singleton c

/-- A JSON string literal with surrounding quotes. -/
def jsonQuote (s : String) : String :=
  String.singleton (Char.ofNat 34) ++ String.join (s.toList.map jsonEscapeChar)
    ++ String.singleton (Char.ofNat 34)

mutual

/-- Model of `JSON.stringify` (no spacing, keys in object order). -/
def JsonVal.stringify : JsonVal → String
  | JsonVal.null => "null"
  | JsonVal.bool b => if b then "true" else "false"
  | JsonVal.num n => toString n
  | JsonVal.str s => jsonQuote s
  | JsonVal.arr xs => "[" ++ stringifyArr xs ++ "]"
  | JsonVal.obj fs => "\x7b" ++ stringifyObj fs ++ "\x7d"

/-- Comma-separated rendering of a JSON array's elements. -/
def stringifyArr : List JsonVal → String
  | [] => ""
  | [x] => x.stringify
  | x :: y :: xs => x.stringify ++ "," ++ stringifyArr (y :: xs)

/-- Comma-separated rendering of a JSON object's fields. -/
def stringifyObj : List (String × JsonVal) → String
  | [] => ""
  | [(k, v)] => jsonQuote k ++ ":" ++ v.stringify
  | (k, v) :: f :: fs => jsonQuote k ++ ":" ++ v.stringify ++ "," ++ stringifyObj (f :: fs)

end

/-- `zod` `z.string().optional()` on an object field: absent is fine,
present must be a string, any other present value fails. -/
def optStrField : Option JsonVal → Option (Option String)
  | none => some none
  | some (JsonVal.str s) => some (some s)
  | some _ => none

/-- `OpenCodeSessionResponseSchema.safeParse` (tasks-app.ts lines 8-10):
succeeds, returning the id, iff the value is an object whose `id` field
is a string. -/
def sessionSchemaParse (j : JsonVal) : Option String :=
  match j with
  | JsonVal.obj fs =>
    match List.lookup "id" fs with
    | some (JsonVal.str s) => some s
    | _ => none
  | _ => none

/-- `OpenCodeErrorResponseSchema.safeParse` (tasks-app.ts lines 12-15):
succeeds on any object whose `error` and `message` fields, when present,
are strings; returns the two optional fields. -/
def errorSchemaParse (j : JsonVal) : Option (Option String × Option String) :=
  match j with
  | JsonVal.obj fs =>
    match optStrField (List.lookup "error" fs), optStrField (List.lookup "message" fs) with
    | some e, some m => some (e, m)
    | _, _ => none
  | _ => none

/-- The session-creation response validation of the create-task handler
(tasks-app.ts lines 176-201): expected schema first, then the known error
envelope (whose `error`/`message` must be truthy to count), otherwise a
generic unexpected-format error carrying `JSON.stringify` of the payload. -/
def validateSession (j : JsonVal) : Except String String :=
  match sessionSchemaParse j with
  | some id => Except.ok id
  | none =>
    match errorSchemaParse j with
    | some (e, m) =>
      if jsTruthyOpt e || jsTruthyOpt m then
        Except.error ("OpenCode API error: " ++ jsTemplate (jsOrStr e m))
      else
        Except.error ("Unexpected session response format: " ++ j.stringify)
    | none =>
      Except.error ("Unexpected session response format: " ++ j.stringify)

/-- The `{data, raw, error}` record returned by `curlJson`. -/
structure CurlJsonResult where
  data : Option JsonVal
  raw : String
  error : Option String

/-- The post-exec behaviour of `curlJson` (tasks-app.ts lines 49-74).
`parsed` is the model input standing for `JSON.parse r.stdout` (`none` if
the parse threw, with exception message `parseErrMsg`). -/
def curlJsonModel (r : ExecResult) (parsed : Option JsonVal) (parseErrMsg : String) : CurlJsonResult :=
  if r.success then
    match parsed with
    | some j => { data := some j, raw := r.stdout, error := none }
    | none => { data := none, raw := r.stdout, error := some ("Failed to parse JSON: " ++ parseErrMsg) }
  else
    { data := none, raw := r.stderr, error := some ("curl failed: " ++ r.stderr) }

/-- Whether `ps` is a prefix of the character list. -/
def isPrefixChars : List Char → List Char → Bool
  | [], _ => true
  | _ :: _, [] => false
  | p :: ps, c :: cs => (p = c) && isPrefixChars ps cs

/-- Whether `ps` occurs as a contiguous run inside the character list. -/
def strIncludesAux (ps : List Char) : List Char → Bool
  | [] => ps.isEmpty
  | c :: cs => isPrefixChars ps (c :: cs) || strIncludesAux ps cs

/-- JS `s.includes(pat)`: `pat` occurs as a substring of `s`. -/
def strIncludes (s pat : String) : Bool :=
  strIncludesAux pat.toList s.toList

/-- Whether one readiness probe's exec result counts as ready
(tasks-app.ts line 92): the command succeeded and its stdout does not
contain the "not ready" sentinel. -/
def probeReady (r : ExecResult) : Bool :=
  r.success && !(strIncludes r.stdout "not ready")

/-- The loop of `waitForOpenCode` (tasks-app.ts lines 85-98), indexed by
the current attempt `i`; returns the result together with the number of
probe calls made. -/
def waitForOpenCodeAux (probe : Nat → ExecResult) (maxAttempts i : Nat) : Bool × Nat :=
  if h : i < maxAttempts then
    if probeReady (probe i) then (true, i + 1)
    else waitForOpenCodeAux probe maxAttempts (i + 1)
  else (false, i)
termination_by maxAttempts - i

/-- `waitForOpenCode` (tasks-app.ts lines 80-102): probes up to
`maxAttempts` times (default 30), sleeping `intervalMs` (default 1000)
after each unsuccessful attempt; the sleep has no observable effect in
the model beyond the parameter itself. Returns (ready?, probe calls). -/
def waitForOpenCode (probe : Nat → ExecResult) (maxAttempts : Nat := 30)
    (intervalMs : Nat := 1000) : Bool × Nat :=
  waitForOpenCodeAux probe maxAttempts 0

/-- The JSON body of the session-creation call (tasks-app.ts line 168):
`JSON.stringify` of the title object built from the first 50 characters
of the prompt. -/
def sessionBodyJson (prompt : String) : String :=
  (JsonVal.obj [("title", JsonVal.str ("Task: " ++ prompt.take 50 ++ "..."))]).stringify

/-- The session-creation curl command issued through `curlJson`
(tasks-app.ts lines 164-170). -/
def sessionCreateCmd (prompt : String) : String :=
  curlJsonCmd "POST" "http://localhost:4096/session" (some (escapeSq (sessionBodyJson prompt)))

/-- The JSON body of the prompt-dispatch message (tasks-app.ts lines 214-216). -/
def messageBodyJson (prompt : String) : String :=
  (JsonVal.obj [("parts",
    JsonVal.arr [JsonVal.obj [("type", JsonVal.str "text"), ("text", JsonVal.str prompt)]])]).stringify

/-- The detached prompt-dispatch command (tasks-app.ts lines 218-221). -/
def messageCmd (sessionId prompt : String) : String :=
  "curl -s -X POST -H " ++ qc ++ "Content-Type: application/json" ++ qc
    ++ " -d " ++ qc ++ escapeSq (messageBodyJson prompt) ++ qc
    ++ " " ++ qc ++ "http://localhost:4096/session/" ++ sessionId ++ "/message" ++ qc

/-- The session-abort curl command issued through `curlJson`
(tasks-app.ts lines 302-308). -/
def abortCmd (sessionId : String) : String :=
  curlJsonCmd "POST" ("http://localhost:4096/session/" ++ sessionId ++ "/abort") none

/-- The behaviour of the execution context during one create-task call:
what each sandbox operation the handler performs would return.
`sessionJson` stands for `JSON.parse` of `sessionCurl.stdout` (`none` if
that parse would throw, with message `sessionParseErrMsg`). -/
structure SandboxBehavior where
  cloneResult : ExecResult
  probeResult : Nat → ExecResult
  sessionCurl : ExecResult
  sessionJson : Option JsonVal
  sessionParseErrMsg : String

/-- The task record returned by a successful create-task call
(tasks-app.ts lines 225-239; the two timestamps are not modelled). -/
structure TaskData where
  id : String
  status : String
  repoUrl : String
  branch : String
  prompt : String
  sessionId : String
deriving Repr, DecidableEq

/-- The create-task handler (tasks-app.ts lines 105-248) as a function of
the sandbox behaviour: runs clone, agent start, readiness poll, session
creation (through `curlJson` and `validateSession`) and detached prompt
dispatch in order, short-circuiting on the first failure, and returns the
outcome (the thrown error message that the catch block would report, or
the task record) together with the exact ordered list of sandbox
operations performed. -/
def createTask (b : SandboxBehavior) (taskId repoUrl branch prompt : String) :
    Except String TaskData × List SbOp :=
  let cloneOps := [SbOp.exec (cloneCmd repoUrl branch)]
  if b.cloneResult.success then
    let w := waitForOpenCode b.probeResult 30 1000
    let ops1 := cloneOps ++ [SbOp.startProcess opencodeServeCmd]
      ++ List.replicate w.2 (SbOp.exec probeCmd)
    if w.1 then
      let ops2 := ops1 ++ [SbOp.exec (sessionCreateCmd prompt)]
      let cj := curlJsonModel b.sessionCurl b.sessionJson b.sessionParseErrMsg
      match cj.error with
      | some e => (Except.error ("Failed to create session: " ++ e), ops2)
      | none =>
        match validateSession (cj.data.getD JsonVal.null) with
        | Except.error e => (Except.error e, ops2)
        | Except.ok sid =>
          (Except.ok { id := taskId, status := "running", repoUrl, branch, prompt,
                       sessionId := sid },
           ops2 ++ [SbOp.startProcess (messageCmd sid prompt)])
    else
      (Except.error "OpenCode server failed to start within timeout", ops1)
  else
    (Except.error ("Failed to clone repository: " ++ b.cloneResult.stderr), cloneOps)

/-- The diff payload `{diff, taskId}` (tasks-app.ts lines 282-287). -/
structure TaskDiffData where
  diff : String
  taskId : String
deriving Repr, DecidableEq

/-- The diff handler (tasks-app.ts lines 273-288): runs `git diff HEAD`
in the task's context and always answers with
`{data: {diff: result.stdout || "", taskId}}` — no error path. -/
def getDiff (taskId : String) (r : ExecResult) : Except String TaskDiffData × List SbOp :=
  (Except.ok { diff := if r.stdout = "" then "" else r.stdout, taskId },
   [SbOp.exec diffCmd])

/-- The response of the abort handler: either the 400 body or the 200
`{data: {success, taskId}}` body. -/
inductive AbortResult where
  | badRequest (error : String)
  | ok (success : Bool) (taskId : String)
deriving Repr, DecidableEq

/-- The abort handler (tasks-app.ts lines 291-316): `sessionId` is the
optional query parameter; `curlRes` is what the forwarded abort curl
would return (the handler never inspects it). -/
def abortTask (taskId : String) (sessionId : Option String) (curlRes : ExecResult) :
    AbortResult × List SbOp :=
  match sessionId with
  | none => (AbortResult.badRequest "sessionId query parameter required", [])
  | some s =>
    if s = "" then (AbortResult.badRequest "sessionId query parameter required", [])
    else (AbortResult.ok true taskId, [SbOp.exec (abortCmd s)])

/-- The streamed response of the events handler: the body chunks plus
the three headers it sets. -/
structure StreamResponse where
  body : List String
  contentType : String
  cacheControl : String
  connection : String
deriving Repr, DecidableEq

/-- The events handler (tasks-app.ts lines 252-270) as a function of the
chunk sequence the execution context's `execStream` would produce: it
opens the stream with one curl command and returns it as the response
body untouched. -/
def eventsEndpoint (taskId : String) (rawStream : List String) :
    StreamResponse × List SbOp :=
  (⟨rawStream, "text/event-stream", "no-cache", "keep-alive"⟩,
   [SbOp.execStream eventsCmd])

/-- A list is never equal to itself with one element appended. -/
lemma append_singleton_ne (events : List TaskEvent) (e : TaskEvent) :
    events ++ [e] ≠ events := by
  intro h
  have := congrArg List.length h
  simp at this

/-- Claim C1: for every normalized event and target session S, the
subscriber receives the event iff its resolved sessionId is absent
(missing or empty, the JS-falsy test of the source) or equals S; any
event carrying a different session id leaves the event list unchanged. -/
theorem session_filter_invariant (e : TaskEvent) (S : String) (events : List TaskEvent) :
    (shouldDeliver e S = true ↔
      sessionAbsent e.properties.sessionId ∨ e.properties.sessionId = some S)
    ∧ (deliverEvent events e S = events ++ [e] ↔ shouldDeliver e S = true)
    ∧ (deliverEvent events e S = events ↔ shouldDeliver e S = false) := by
  refine ⟨?_, ?_, ?_⟩
  · cases h : e.properties.sessionId with
    | none => simp [shouldDeliver, sessionAbsent, h]
    | some s => simp [shouldDeliver, sessionAbsent, h]
  · by_cases hd : shouldDeliver e S <;>
      simp [deliverEvent, hd, append_singleton_ne]
  · by_cases hd : shouldDeliver e S <;>
      simp [deliverEvent, hd, (append_singleton_ne events e).symm]

/-- Folding `deriveStep` over events none of which has one of the three
status-relevant types leaves the accumulator unchanged. -/
lemma foldl_deriveStep_noop (evs : List TaskEvent) :
    ∀ acc, (∀ e ∈ evs, e.type ≠ "session.status" ∧ e.type ≠ "session.idle" ∧ e.type ≠ "error") →
      evs.foldl deriveStep acc = acc := by
  induction evs with
  | nil => intro acc _; rfl
  | cons e rest ih =>
    intro acc h
    have he := h e (by simp)
    have hstep : deriveStep acc e = acc := by
      simp [deriveStep, he.1, he.2.1, he.2.2]
    simp only [List.foldl_cons, hstep]
    exact ih acc (fun x hx => h x (by simp [hx]))

/-- Claim C2: `deriveStatus` is the left fold of `deriveStep` starting
from (unknown, false); a `session.status` event with status.type "busy"
sets busy and with "idle" sets idle (keeping the completion flag), a
`session.idle` event sets (completed, true), an `error` event sets
(error, true), any other event type changes nothing, and a sequence with
no matching event yields (unknown, false). -/
theorem deriveStatus_fold_rules :
    deriveStatus [] = (DerivedStatus.unknown, false)
    ∧ (∀ evs e, deriveStatus (evs ++ [e]) = deriveStep (deriveStatus evs) e)
    ∧ (∀ acc p, p.status = some ⟨"busy"⟩ →
        deriveStep acc ⟨"session.status", p⟩ = (DerivedStatus.busy, acc.2))
    ∧ (∀ acc p, p.status = some ⟨"idle"⟩ →
        deriveStep acc ⟨"session.status", p⟩ = (DerivedStatus.idle, acc.2))
    ∧ (∀ acc p, deriveStep acc ⟨"session.idle", p⟩ = (DerivedStatus.completed, true))
    ∧ (∀ acc p, deriveStep acc ⟨"error", p⟩ = (DerivedStatus.error, true))
    ∧ (∀ acc e, e.type ≠ "session.status" → e.type ≠ "session.idle" → e.type ≠ "error" →
        deriveStep acc e = acc)
    ∧ (∀ evs, (∀ e ∈ evs, e.type ≠ "session.status" ∧ e.type ≠ "session.idle" ∧ e.type ≠ "error") →
        deriveStatus evs = (DerivedStatus.unknown, false)) := by
  refine ⟨rfl, ?_, ?_, ?_, ?_, ?_, ?_, ?_⟩
  · intro evs e; simp [deriveStatus, List.foldl_append]
  · intro acc p h; simp [deriveStep, h]
  · intro acc p h; simp [deriveStep, h]
  · intro acc p; simp [deriveStep]
  · intro acc p; simp [deriveStep]
  · intro acc e h1 h2 h3; simp [deriveStep, h1, h2, h3]
  · intro evs h; exact foldl_deriveStep_noop evs _ h

/-- One `deriveStep` never resets the completion flag once it is true. -/
lemma deriveStep_keeps_complete (acc : DerivedStatus × Bool) (e : TaskEvent)
    (h : acc.2 = true) : (deriveStep acc e).2 = true := by
  unfold deriveStep
  repeat' split
  all_goals simp [h]

/-- Folding `deriveStep` from a completed accumulator stays completed. -/
lemma foldl_deriveStep_complete (evs : List TaskEvent) :
    ∀ acc : DerivedStatus × Bool, acc.2 = true → (evs.foldl deriveStep acc).2 = true := by
  induction evs with
  | nil => intro acc h; simpa
  | cons e rest ih =>
    intro acc h
    exact ih _ (deriveStep_keeps_complete acc e h)

/-- Claim C8: the sequence [session.status with busy, session.idle]
derives (completed, true), and appending any further events whose type is
neither "session.idle" nor "error" never resets isComplete to false. -/
theorem terminal_status_monotone (p1 p2 : TaskEventProps) (tail : List TaskEvent)
    (hbusy : p1.status = some ⟨"busy"⟩)
    (htail : ∀ e ∈ tail, e.type ≠ "session.idle" ∧ e.type ≠ "error") :
    deriveStatus [⟨"session.status", p1⟩, ⟨"session.idle", p2⟩] = (DerivedStatus.completed, true)
    ∧ (deriveStatus ([⟨"session.status", p1⟩, ⟨"session.idle", p2⟩] ++ tail)).2 = true := by
  have h2 : deriveStatus [⟨"session.status", p1⟩, ⟨"session.idle", p2⟩] =
      (DerivedStatus.completed, true) := by
    simp [deriveStatus, deriveStep, hbusy]
  refine ⟨h2, ?_⟩
  have hsplit : deriveStatus ([⟨"session.status", p1⟩, ⟨"session.idle", p2⟩] ++ tail) =
      tail.foldl deriveStep (deriveStatus [⟨"session.status", p1⟩, ⟨"session.idle", p2⟩]) := by
    simp [deriveStatus, List.foldl_append]
  rw [hsplit, h2]
  exact foldl_deriveStep_complete tail _ rfl

/-- Claim C10: when the upstream event's native properties carry a
lowercase sessionId key, the spread placed after the resolved fields
makes that native value win: the normalized sessionId equals it whatever
the camel-cased sessionID or part.sessionID resolution says, the session
filter then tests the native value, and the same holds for messageId. -/
theorem native_key_overwrites_resolution (t : String) (props : NativeProps) (v S : String)
    (hv : props.sessionId = some v) :
    (normalizeEvent ⟨t, props⟩).properties.sessionId = some v
    ∧ shouldDeliver (normalizeEvent ⟨t, props⟩) S = ((v == "") || (v == S))
    ∧ (∀ w, props.messageId = some w →
        (normalizeEvent ⟨t, props⟩).properties.messageId = some w) := by
  refine ⟨?_, ?_, ?_⟩
  · simp [normalizeEvent, hv]
  · simp [normalizeEvent, shouldDeliver, hv]
  · intro w hw; simp [normalizeEvent, hw]

/-- When every probe inside the budget is unready, the poll loop runs to
exhaustion and reports failure after exactly `maxA` calls. -/
lemma waitAux_all_fail (probe : Nat → ExecResult) (maxA : Nat)
    (h : ∀ j, j < maxA → probeReady (probe j) = false) :
    ∀ n i, i + n = maxA → waitForOpenCodeAux probe maxA i = (false, maxA) := by
  intro n
  induction n with
  | zero =>
    intro i hi
    have hge : ¬ i < maxA := by omega
    unfold waitForOpenCodeAux
    simp [hge]
    omega
  | succ n ih =>
    intro i hi
    have hlt : i < maxA := by omega
    unfold waitForOpenCodeAux
    simp [hlt, h i hlt]
    exact ih (i + 1) (by omega)

/-- The poll loop stops at the first ready probe, after k+1 calls. -/
lemma waitAux_first_success (probe : Nat → ExecResult) (maxA k : Nat)
    (hk : k < maxA) (hs : probeReady (probe k) = true)
    (hf : ∀ j, j < k → probeReady (probe j) = false) :
    ∀ n i, i + n = k → waitForOpenCodeAux probe maxA i = (true, k + 1) := by
  intro n
  induction n with
  | zero =>
    intro i hi
    have hik : i = k := by omega
    subst hik
    unfold waitForOpenCodeAux
    simp [hk, hs]
  | succ n ih =>
    intro i hi
    have hik : i < k := by omega
    have hlt : i < maxA := by omega
    unfold waitForOpenCodeAux
    simp [hlt, hf i hik]
    exact ih (i + 1) (by omega)

/-- Claim C4: `waitForOpenCode` calls the probe at most `maxAttempts`
times, returns true as soon as one probe is ready (after exactly k+1
calls when attempt k is the first ready one), and returns false after
exactly `maxAttempts` calls when no probe ever succeeds. -/
theorem readiness_budget (probe : Nat → ExecResult) (maxAttempts intervalMs k : Nat) :
    ((∀ j, j < maxAttempts → probeReady (probe j) = false) →
      waitForOpenCode probe maxAttempts intervalMs = (false, maxAttempts))
    ∧ (k < maxAttempts → probeReady (probe k) = true →
        (∀ j, j < k → probeReady (probe j) = false) →
        waitForOpenCode probe maxAttempts intervalMs = (true, k + 1)) := by
  constructor
  · intro h
    exact waitAux_all_fail probe maxAttempts h maxAttempts 0 (by omega)
  · intro hk hs hf
    exact waitAux_first_success probe maxAttempts k hk hs hf k 0 (by omega)

/-- Claim C3: when the clone command fails, the create-task handler
performs no further sandbox operation (no process start, no readiness
probe, no session-creation call) and returns exactly the clone failure
message built verbatim from the command's stderr. -/
theorem clone_failure_short_circuit (b : SandboxBehavior) (taskId repoUrl branch prompt : String)
    (h : b.cloneResult.success = false) :
    createTask b taskId repoUrl branch prompt =
      (Except.error ("Failed to clone repository: " ++ b.cloneResult.stderr),
       [SbOp.exec (cloneCmd repoUrl branch)]) := by
  simp [createTask, h]

/-- Claim C5: the session-creation response is validated in three cases:
a payload matching the session schema yields its id; otherwise, a payload
matching the error envelope with a truthy error or message field fails
with that envelope's message; otherwise the handler fails with the
generic unexpected-format error carrying the stringified raw payload. -/
theorem session_response_validation (j : JsonVal) :
    (∀ sid, sessionSchemaParse j = some sid → validateSession j = Except.ok sid)
    ∧ (∀ e m, sessionSchemaParse j = none → errorSchemaParse j = some (e, m) →
        (jsTruthyOpt e || jsTruthyOpt m) = true →
        validateSession j = Except.error ("OpenCode API error: " ++ jsTemplate (jsOrStr e m)))
    ∧ (sessionSchemaParse j = none →
        (∀ e m, errorSchemaParse j = some (e, m) → (jsTruthyOpt e || jsTruthyOpt m) = false) →
        validateSession j =
          Except.error ("Unexpected session response format: " ++ j.stringify)) := by
  refine ⟨?_, ?_, ?_⟩
  · intro sid h
    simp [validateSession, h]
  · intro e m h1 h2 h3
    simp [validateSession, h1, h2, h3]
  · intro h1 h2
    simp only [validateSession, h1]
    cases he : errorSchemaParse j with
    | none => simp
    | some em =>
      obtain ⟨e, m⟩ := em
      simp [h2 e m he]

/-- Claim C6: the abort handler answers 400 and touches the execution
context not at all when the sessionId query parameter is missing (or
empty, which the JS falsy test treats the same), and with a session id
present it forwards one abort curl and reports success regardless of what
that call returns. -/
theorem abort_requires_session (taskId : String) (sessionId : Option String) (curlRes : ExecResult) :
    ((sessionId = none ∨ sessionId = some "") →
      abortTask taskId sessionId curlRes =
        (AbortResult.badRequest "sessionId query parameter required", []))
    ∧ (∀ s, sessionId = some s → s ≠ "" →
        abortTask taskId sessionId curlRes =
          (AbortResult.ok true taskId, [SbOp.exec (abortCmd s)])) := by
  constructor
  · rintro (h | h) <;> simp [abortTask, h]
  · intro s hs hne
    simp [abortTask, hs, hne]

/-- Claim C7: for every task id and every exec result of the diff
command, the diff handler answers with a success payload whose diff text
is the command's stdout — the empty string when there are no changes or
the context and repository are missing — and never with an error. -/
theorem diff_always_succeeds (taskId : String) (r : ExecResult) :
    getDiff taskId r = (Except.ok { diff := r.stdout, taskId }, [SbOp.exec diffCmd]) := by
  unfold getDiff
  by_cases h : r.stdout = "" <;> simp [h]

/-- Claim C9: the server-side events endpoint performs exactly one
sandbox operation — opening the raw output stream of the agent's event
feed — and returns that stream unchanged as the response body with the
event-stream content type: no unwrapping, normalization or session
filtering happens server-side. -/
theorem events_endpoint_passthrough (taskId : String) (rawStream : List String) :
    (eventsEndpoint taskId rawStream).1.body = rawStream
    ∧ (eventsEndpoint taskId rawStream).1.contentType = "text/event-stream"
    ∧ (eventsEndpoint taskId rawStream).2 = [SbOp.execStream eventsCmd] :=
  ⟨rfl, rfl, rfl⟩

/-- Concrete instance of the fold rules: a busy step, an idle step, a
no-change step on an unrelated type, and a sequence with no matching
event deriving (unknown, false). -/
theorem deriveStatus_fold_rules_witness :
    deriveStep (DerivedStatus.unknown, false)
        ⟨"session.status", { status := some ⟨"busy"⟩ }⟩ = (DerivedStatus.busy, false)
    ∧ deriveStep (DerivedStatus.busy, false)
        ⟨"session.status", { status := some ⟨"idle"⟩ }⟩ = (DerivedStatus.idle, false)
    ∧ deriveStep (DerivedStatus.unknown, false) ⟨"message.start", {}⟩ =
        (DerivedStatus.unknown, false)
    ∧ deriveStatus [⟨"message.start", {}⟩, ⟨"message.part.updated", {}⟩] =
        (DerivedStatus.unknown, false) :=
  ⟨deriveStatus_fold_rules.2.2.1 _ _ rfl,
   deriveStatus_fold_rules.2.2.2.1 _ _ rfl,
   deriveStatus_fold_rules.2.2.2.2.2.2.1 _ _ (by decide) (by decide) (by decide),
   deriveStatus_fold_rules.2.2.2.2.2.2.2 _ (by decide)⟩

/-- Concrete instance of the clone short-circuit: a failing clone yields
exactly the clone error and the single clone exec. -/
theorem clone_failure_short_circuit_witness :
    createTask
      { cloneResult := ⟨false, "", "fatal: repository not found"⟩,
        probeResult := fun _ => ⟨false, "", ""⟩,
        sessionCurl := ⟨true, "", ""⟩,
        sessionJson := none,
        sessionParseErrMsg := "" }
      "task-1" "https://example.com/r.git" "main" "add readme" =
      (Except.error ("Failed to clone repository: " ++ "fatal: repository not found"),
       [SbOp.exec (cloneCmd "https://example.com/r.git" "main")]) :=
  clone_failure_short_circuit _ _ _ _ _ rfl

/-- Concrete instance of the readiness budget: a never-ready probe with
maxAttempts 3 and interval 0 is called exactly 3 times and fails; a probe
first ready at attempt 1 stops after 2 calls with success. -/
theorem readiness_budget_witness :
    waitForOpenCode (fun _ => ⟨false, "", ""⟩) 3 0 = (false, 3)
    ∧ waitForOpenCode (fun i => if i = 0 then ⟨false, "", ""⟩ else ⟨true, "ok", ""⟩) 3 0 =
        (true, 2) :=
  ⟨(readiness_budget _ 3 0 0).1 (by decide),
   (readiness_budget _ 3 0 1).2 (by decide) (by decide) (by decide)⟩

/-- Concrete instance of the three validation cases: a session payload,
an error envelope, and a payload matching neither schema. -/
theorem session_response_validation_witness :
    validateSession (JsonVal.obj [("id", JsonVal.str "ses_1")]) = Except.ok "ses_1"
    ∧ validateSession (JsonVal.obj [("error", JsonVal.str "boom")]) =
        Except.error ("OpenCode API error: " ++ "boom")
    ∧ validateSession (JsonVal.num 5) =
        Except.error ("Unexpected session response format: " ++ (JsonVal.num 5).stringify) :=
  ⟨(session_response_validation _).1 "ses_1" rfl,
   (session_response_validation _).2.1 (some "boom") none rfl rfl (by decide),
   (session_response_validation _).2.2 rfl
     (by intro e m h; simp [errorSchemaParse] at h)⟩

/-- Concrete instance of the abort contract: a missing sessionId yields
the 400 error with no sandbox operation; a present one yields success
even though the forwarded curl failed. -/
theorem abort_requires_session_witness :
    abortTask "task-1" none ⟨true, "", ""⟩ =
      (AbortResult.badRequest "sessionId query parameter required", [])
    ∧ abortTask "task-1" (some "ses_1") ⟨false, "", "boom"⟩ =
      (AbortResult.ok true "task-1", [SbOp.exec (abortCmd "ses_1")]) :=
  ⟨(abort_requires_session _ _ _).1 (Or.inl rfl),
   (abort_requires_session _ _ _).2 "ses_1" rfl (by decide)⟩

/-- Concrete instance of terminal-status monotonicity: busy then idle
derives (completed, true), and two further non-idle, non-error events
leave isComplete true. -/
theorem terminal_status_monotone_witness :
    deriveStatus [⟨"session.status", { status := some ⟨"busy"⟩ }⟩, ⟨"session.idle", {}⟩] =
      (DerivedStatus.completed, true)
    ∧ (deriveStatus ([⟨"session.status", { status := some ⟨"busy"⟩ }⟩, ⟨"session.idle", {}⟩]
        ++ [⟨"message.part.updated", {}⟩,
            ⟨"session.status", { status := some ⟨"busy"⟩ }⟩])).2 = true :=
  terminal_status_monotone _ _ _ rfl (by decide)

/-- Concrete instance of the spread overwrite: a native lowercase
sessionId "ses_B" beats the camel-cased resolution "ses_A", the filter
for session "ses_A" therefore drops the event, and the native messageId
wins the same way. -/
theorem native_key_overwrites_resolution_witness :
    (normalizeEvent ⟨"message.part.updated",
        { sessionID := some "ses_A", sessionId := some "ses_B",
          messageId := some "msg_B" }⟩).properties.sessionId = some "ses_B"
    ∧ shouldDeliver (normalizeEvent ⟨"message.part.updated",
        { sessionID := some "ses_A", sessionId := some "ses_B",
          messageId := some "msg_B" }⟩) "ses_A" = false
    ∧ (normalizeEvent ⟨"message.part.updated",
        { sessionID := some "ses_A", sessionId := some "ses_B",
          messageId := some "msg_B" }⟩).properties.messageId = some "msg_B" :=
  ⟨(native_key_overwrites_resolution _ _ "ses_B" "ses_A" rfl).1,
   ((native_key_overwrites_resolution _ _ "ses_B" "ses_A" rfl).2.1).trans (by decide),
   (native_key_overwrites_resolution _ _ "ses_B" "ses_A" rfl).2.2 "msg_B" rfl⟩
